import Mathlib

/-!
# Verification of the oxidiz3ds dual-core emulator against its specification

Shallow embedding of the scheduler (`crates/threemu/src/scheduler.rs`), the
run loop (`crates/threemu/src/core.rs`), the SDMMC controller model
(`crates/threemu/src/mmio/sdmmc.rs`), the GPU register model
(`crates/threemu/src/mmio/gpu.rs`) and FIRM header parsing
(`crates/threemu/src/firm.rs`).

Machine integers are embedded as `Nat`; a Rust `as u16` truncating cast is
`% 65536`, wrapping `u16`/`u32` arithmetic is explicit `% 2^16` / `% 2^32`.
The opaque instruction-execution engine (unicorn) is embedded as an oracle:
each `emu_start` + `reg_read(PC)` pair is one `EmuResult` input value.
File I/O on the SD-card image is embedded as a total byte map
`Nat → Nat` (offset to byte); seeks and reads are modelled as succeeding.
-/

/-! ## Scheduler (crates/threemu/src/scheduler.rs) -/

/-- Outcome of one bounded engine run (`emu_start` result together with the
subsequent `reg_read(RegisterARM::PC)`): `ok pc` for `Ok(_)`, `err pc` for
`Err(_)`, where `pc` is the PC the engine reports afterwards. -/
inductive EmuResult where
  | ok (pc : Nat)
  | err (pc : Nat)
deriving DecidableEq, Repr

/-- `QuantumResult` from scheduler.rs (the error string is abstracted away). -/
inductive QuantumResult where
  | cont
  | error
deriving DecidableEq, Repr

/-- `SchedulerConfig` from scheduler.rs. -/
structure SchedulerConfig where
  arm9_quantum : Nat
  arm11_quantum : Nat
  arm9_stop_pc : Option Nat
  arm11_stop_pc : Option Nat
  max_instructions : Option Nat
deriving DecidableEq, Repr

/-- `Scheduler` from scheduler.rs. -/
structure Scheduler where
  config : SchedulerConfig
  arm9_pc : Nat
  arm11_pc : Nat
  total_executed : Nat
  arm9_stopped : Bool
  arm11_stopped : Bool
deriving DecidableEq, Repr

/-- `Scheduler::new`. -/
def Scheduler.new (config : SchedulerConfig) (arm9_entry arm11_entry : Nat) :
    Scheduler :=
  { config := config
    arm9_pc := arm9_entry
    arm11_pc := arm11_entry
    total_executed := 0
    arm9_stopped := false
    arm11_stopped := false }

/-- `Scheduler::all_stopped`. -/
def Scheduler.all_stopped (s : Scheduler) : Bool :=
  s.arm9_stopped && s.arm11_stopped

/-- `Scheduler::check_stop_conditions`. Each `if let Some(..) && ..` guard of
the Rust code is one Bool-valued match here. -/
def Scheduler.check_stop_conditions (s : Scheduler) : Bool :=
  if s.arm9_stopped && s.arm11_stopped then
    true
  else if (match s.config.arm9_stop_pc with
           | some stop_pc => decide (s.arm9_pc = stop_pc)
           | none => false) then
    true
  else if (match s.config.arm11_stop_pc with
           | some stop_pc => decide (s.arm11_pc = stop_pc)
           | none => false) then
    true
  else if (match s.config.max_instructions with
           | some max => decide (max ≤ s.total_executed)
           | none => false) then
    true
  else
    false

/-- `Scheduler::is_arm9_stop_pc`. -/
def Scheduler.is_arm9_stop_pc (s : Scheduler) (pc : Nat) : Prop :=
  s.config.arm9_stop_pc = some pc

instance (s : Scheduler) (pc : Nat) : Decidable (s.is_arm9_stop_pc pc) := by
  unfold Scheduler.is_arm9_stop_pc; infer_instance

/-- `Scheduler::is_arm11_stop_pc`. -/
def Scheduler.is_arm11_stop_pc (s : Scheduler) (pc : Nat) : Prop :=
  s.config.arm11_stop_pc = some pc

instance (s : Scheduler) (pc : Nat) : Decidable (s.is_arm11_stop_pc pc) := by
  unfold Scheduler.is_arm11_stop_pc; infer_instance

/-- The ARM9 half of `Scheduler::run_quantum`: the `if !self.arm9_stopped`
block. Returns the updated scheduler and `some QuantumResult.error` when the
Rust code takes the early `return QuantumResult::Error(..)`. `r9` is the
engine-oracle outcome of the `arm9_emu.emu_start` call. -/
def Scheduler.run_quantum_arm9 (s : Scheduler) (r9 : EmuResult) :
    Scheduler × Option QuantumResult :=
  if s.arm9_stopped then
    (s, none)
  else
    let step : Scheduler × Option QuantumResult :=
      match r9 with
      | .ok pc =>
        ({ s with
            total_executed := s.total_executed + s.config.arm9_quantum
            arm9_pc := pc }, none)
      | .err pc =>
        let s1 := { s with arm9_pc := pc }
        if s1.is_arm9_stop_pc s1.arm9_pc then
          ({ s1 with arm9_stopped := true }, none)
        else
          (s1, some .error)
    match step with
    | (s1, some e) => (s1, some e)
    | (s1, none) =>
      if s1.is_arm9_stop_pc s1.arm9_pc then
        ({ s1 with arm9_stopped := true }, none)
      else
        (s1, none)

/-- The ARM11 half of `Scheduler::run_quantum`: the `if !self.arm11_stopped`
block. -/
def Scheduler.run_quantum_arm11 (s : Scheduler) (r11 : EmuResult) :
    Scheduler × Option QuantumResult :=
  if s.arm11_stopped then
    (s, none)
  else
    let step : Scheduler × Option QuantumResult :=
      match r11 with
      | .ok pc =>
        ({ s with
            total_executed := s.total_executed + s.config.arm11_quantum
            arm11_pc := pc }, none)
      | .err pc =>
        let s1 := { s with arm11_pc := pc }
        if s1.is_arm11_stop_pc s1.arm11_pc then
          ({ s1 with arm11_stopped := true }, none)
        else
          (s1, some .error)
    match step with
    | (s1, some e) => (s1, some e)
    | (s1, none) =>
      if s1.is_arm11_stop_pc s1.arm11_pc then
        ({ s1 with arm11_stopped := true }, none)
      else
        (s1, none)

/-- `Scheduler::run_quantum`: ARM9 first; an ARM9 engine fault that does not
land on the ARM9 stop PC returns early and skips ARM11 entirely. -/
def Scheduler.run_quantum (s : Scheduler) (r9 r11 : EmuResult) :
    Scheduler × QuantumResult :=
  match s.run_quantum_arm9 r9 with
  | (s1, some e) => (s1, e)
  | (s1, none) =>
    match s1.run_quantum_arm11 r11 with
    | (s2, some e) => (s2, e)
    | (s2, none) => (s2, .cont)

/-! ## Run loop (crates/threemu/src/core.rs) -/

/-- `StopReason` from core.rs. `EmulatorCore::run` itself only ever produces
`StopCondition` or `Error`, so the `Timeout` variant is omitted. -/
inductive StopReason where
  | stopCondition
  | error
deriving DecidableEq, Repr

/-- `EmulatorCore::should_stop`: the scheduler's stop conditions, plus the
wall-clock timeout. The timeout comparison
`elapsed_ms >= timeout_ms` is embedded as the externally supplied boolean
`timedOut` (wall-clock time is outside the model). -/
def should_stop (s : Scheduler) (timedOut : Bool) : Bool :=
  if s.check_stop_conditions then true
  else if timedOut then true
  else false

/-- `EmulatorCore::run`: loop checking `should_stop` at each round boundary,
then running one quantum. Engine behaviour and the per-round timeout check
are oracles indexed by round number; `fuel` bounds the number of rounds so
the loop is total (`none` = fuel exhausted, i.e. the run has not yet
terminated within `fuel` rounds). On termination, returns the stop reason,
the final scheduler state and the round index at which the run returned. -/
def runCore : Nat → Nat → Scheduler → (Nat → Bool) → (Nat → EmuResult) →
    (Nat → EmuResult) → Option (StopReason × Scheduler × Nat)
  | 0, _, _, _, _, _ => none
  | fuel + 1, round, s, tmo, e9, e11 =>
    if should_stop s (tmo round) then
      some (.stopCondition, s, round)
    else
      match s.run_quantum (e9 round) (e11 round) with
      | (s1, .error) => some (.error, s1, round)
      | (s1, .cont) => runCore fuel (round + 1) s1 tmo e9 e11

/-! ## SDMMC controller (crates/threemu/src/mmio/sdmmc.rs) -/

def TMIO_STAT0_CMDRESPEND : Nat := 0x0001
def TMIO_STAT0_DATAEND : Nat := 0x0004
def TMIO_STAT0_CARD_INSERTED : Nat := 1 <<< 5
def TMIO_STAT0_WRPROTECT : Nat := 1 <<< 7
def TMIO_STAT1_RXRDY : Nat := 0x0100
def TMIO_STAT1_TXRQ : Nat := 0x0200
def TMIO_STAT1_CMD_BUSY : Nat := 0x4000

/-- MMC card states (sdmmc.rs `MmcState`), stored in STATUS1 bits 9-12. -/
inductive MmcState where
  | idle
  | ready
  | identify
  | standby
  | transfer
  | data
  | receive
  | program
deriving DecidableEq, Repr

/-- The `#[repr(u16)]` discriminant of an `MmcState` value. -/
def MmcState.toBits : MmcState → Nat
  | .idle => 0
  | .ready => 1
  | .identify => 2
  | .standby => 3
  | .transfer => 4
  | .data => 5
  | .receive => 6
  | .program => 7

/-- `SdmmcState` from sdmmc.rs. All 16-bit registers are `Nat` (kept below
2^16 by the `% 65536` of each `as u16` cast). `resp` always has length 8.
The backing SD image (`sd_file`) is a byte map from absolute file offset to
byte value; `none` means no image is attached. -/
structure SdmmcState where
  cmd : Nat
  portsel : Nat
  cmdarg0 : Nat
  cmdarg1 : Nat
  stop : Nat
  blkcount : Nat
  resp : List Nat
  status0 : Nat
  status1 : Nat
  irq_mask0 : Nat
  irq_mask1 : Nat
  clkctl : Nat
  blklen : Nat
  opt : Nat
  error_detail_status0 : Nat
  error_detail_status1 : Nat
  fifo : Nat
  data_ctl : Nat
  reset : Nat
  data32_irq : Nat
  data32_blk_len : Nat
  data32_blk_count : Nat
  data32_fifo : Nat
  app_command_next : Bool
  transfer_buffer : List Nat
  transfer_pos : Nat
  transfer_blocks_remaining : Nat
  transfer_start_addr : Nat
  sd_file : Option (Nat → Nat)

/-- `SdmmcState::new` (the file-open side effect is the `sd_file` argument:
`some` iff a path was given and opening succeeded). -/
def SdmmcState.new (sd_file : Option (Nat → Nat)) : SdmmcState :=
  { cmd := 0, portsel := 0, cmdarg0 := 0, cmdarg1 := 0, stop := 0
    blkcount := 0, resp := [0, 0, 0, 0, 0, 0, 0, 0], status0 := 0, status1 := 0
    irq_mask0 := 0, irq_mask1 := 0, clkctl := 0, blklen := 0, opt := 0
    error_detail_status0 := 0, error_detail_status1 := 0, fifo := 0
    data_ctl := 0, reset := 0, data32_irq := 0, data32_blk_len := 0
    data32_blk_count := 0, data32_fifo := 0, app_command_next := false
    transfer_buffer := [], transfer_pos := 0, transfer_blocks_remaining := 0
    transfer_start_addr := 0, sd_file := sd_file }

/-- `file.seek(off)` followed by `read_exact` of `len` bytes (reads are
modelled as succeeding; the degraded zero-fill path on I/O error is not
reachable in this model). -/
def fileReadBytes (f : Nat → Nat) (off len : Nat) : List Nat :=
  (List.range len).map (fun i => f (off + i))

/-- `file.seek(off)` followed by `write_all` of `bytes`: the updated byte
map of the SD image. -/
def fileWriteBytes (f : Nat → Nat) (off : Nat) (bytes : List Nat) :
    Nat → Nat :=
  fun a => if off ≤ a ∧ a < off + bytes.length then bytes.getD (a - off) 0 else f a

/-- `SdmmcState::get_state`: decode STATUS1 bits 9-12. -/
def SdmmcState.get_state (s : SdmmcState) : MmcState :=
  match (s.status1 >>> 9) &&& 0xF with
  | 0 => .idle
  | 1 => .ready
  | 2 => .identify
  | 3 => .standby
  | 4 => .transfer
  | 5 => .data
  | 6 => .receive
  | 7 => .program
  | _ => .idle

/-- `SdmmcState::set_state`: `(status1 & !0x1E00) | (state << 9)`; the u16
complement of `0x1E00` is `0xE1FF`. -/
def SdmmcState.set_state (s : SdmmcState) (st : MmcState) : SdmmcState :=
  { s with status1 := (s.status1 &&& 0xE1FF) ||| (st.toBits <<< 9) }

/-- `SdmmcState::get_r1_response`. -/
def SdmmcState.get_r1_response (s : SdmmcState) : Nat :=
  let r1 := (if s.app_command_next then 1 else 0) <<< 5
  let r1 := r1 ||| (s.get_state.toBits <<< 9)
  if s.transfer_blocks_remaining = 0 then r1 ||| (1 <<< 8) else r1

/-- `SdmmcState::command_end`: clear CMD_BUSY (u16 complement of `0x4000` is
`0xBFFF`), set CMDRESPEND. -/
def SdmmcState.command_end (s : SdmmcState) : SdmmcState :=
  { s with
      status1 := s.status1 &&& 0xBFFF
      status0 := s.status0 ||| TMIO_STAT0_CMDRESPEND }

/-- `SdmmcState::get_argument`. -/
def SdmmcState.get_argument (s : SdmmcState) : Nat :=
  (s.cmdarg1 <<< 16) ||| s.cmdarg0

/-- `SdmmcState::set_response_128`: split four u32 words little-endian across
the eight 16-bit response registers. -/
def SdmmcState.set_response_128 (s : SdmmcState) (r0 r1 r2 r3 : Nat) :
    SdmmcState :=
  { s with resp :=
      ((((((((s.resp.set 0 (r0 &&& 0xFFFF)).set 1 ((r0 >>> 16) % 65536)).set
        2 (r1 &&& 0xFFFF)).set 3 ((r1 >>> 16) % 65536)).set
        4 (r2 &&& 0xFFFF)).set 5 ((r2 >>> 16) % 65536)).set
        6 (r3 &&& 0xFFFF)).set 7 ((r3 >>> 16) % 65536)) }

/-- `SdmmcState::set_response_32`. -/
def SdmmcState.set_response_32 (s : SdmmcState) (r : Nat) : SdmmcState :=
  { s with resp := (s.resp.set 0 (r &&& 0xFFFF)).set 1 ((r >>> 16) % 65536) }

/-- `SdmmcState::nand_selected`. -/
def SdmmcState.nand_selected (s : SdmmcState) : Bool :=
  s.portsel = 1

/-- `SdmmcState::cmd0_go_idle_state`. -/
def SdmmcState.cmd0_go_idle_state (s : SdmmcState) : SdmmcState :=
  (((s.set_state .idle).set_response_32 (1 <<< 9))).command_end

/-- `SdmmcState::cmd1_send_op_cond`. -/
def SdmmcState.cmd1_send_op_cond (s : SdmmcState) : SdmmcState :=
  (s.set_response_32 0x80FF8080).command_end

/-- `SdmmcState::cmd2_all_send_cid`. -/
def SdmmcState.cmd2_all_send_cid (s : SdmmcState) : SdmmcState :=
  let s :=
    if s.nand_selected then
      s.set_response_128 0 0 0 0
    else
      s.set_response_128 0xD71C65CD 0x4445147B 0x4D324731 0x00150100
  let s := s.command_end
  if s.get_state = .ready then s.set_state .identify else s

/-- `SdmmcState::cmd3_send_relative_addr`. -/
def SdmmcState.cmd3_send_relative_addr (s : SdmmcState) (_arg : Nat) :
    SdmmcState :=
  let s := (s.set_response_32 (0x00010000 ||| s.get_r1_response)).command_end
  if s.get_state = .identify then s.set_state .standby else s

/-- `SdmmcState::cmd7_select_card`. -/
def SdmmcState.cmd7_select_card (s : SdmmcState) : SdmmcState :=
  (s.set_response_32 s.get_r1_response).command_end

/-- `SdmmcState::cmd8_send_if_cond`. -/
def SdmmcState.cmd8_send_if_cond (s : SdmmcState) : SdmmcState :=
  (s.set_response_32 0x1AA).command_end

/-- `SdmmcState::cmd9_send_csd`. -/
def SdmmcState.cmd9_send_csd (s : SdmmcState) : SdmmcState :=
  (s.set_response_128 0xe9964040 0xdff6db7f 0x2a0f5901 0x3f269001).command_end

/-- `SdmmcState::cmd10_send_cid`. -/
def SdmmcState.cmd10_send_cid (s : SdmmcState) : SdmmcState :=
  (s.set_response_128 0 0 0 0).command_end

/-- `SdmmcState::cmd12_stop_transmission`. -/
def SdmmcState.cmd12_stop_transmission (s : SdmmcState) : SdmmcState :=
  let s := s.set_response_32 s.get_r1_response
  let s := { s with transfer_blocks_remaining := 0, transfer_buffer := [] }
  let s := s.command_end
  match s.get_state with
  | .data => s.set_state .transfer
  | .receive => s.set_state .transfer
  | .transfer => s.set_state .standby
  | _ => s

/-- `SdmmcState::cmd13_send_status`. -/
def SdmmcState.cmd13_send_status (s : SdmmcState) : SdmmcState :=
  (s.set_response_32 s.get_r1_response).command_end

/-- `SdmmcState::cmd16_set_blocklen` (logging only). -/
def SdmmcState.cmd16_set_blocklen (s : SdmmcState) (_arg : Nat) : SdmmcState :=
  s.command_end

/-- `SdmmcState::cmd18_read_multiple_block`. -/
def SdmmcState.cmd18_read_multiple_block (s : SdmmcState) (arg : Nat) :
    SdmmcState :=
  let sector := arg
  let blocks := if s.data32_blk_len > 0 then s.data32_blk_count else s.blkcount
  let block_len := if s.data32_blk_len > 0 then s.data32_blk_len else s.blklen
  let s := { s with
      transfer_start_addr := sector
      transfer_blocks_remaining := blocks
      transfer_pos := 0 }
  let s := s.set_state .data
  let s := { s with transfer_buffer := List.replicate block_len 0 }
  let s :=
    if s.portsel = 0 then
      match s.sd_file with
      | some f => { s with transfer_buffer := fileReadBytes f (sector * 512) block_len }
      | none => s
    else s
  let s := (s.set_response_32 s.get_r1_response).command_end
  { s with status1 := s.status1 ||| TMIO_STAT1_RXRDY }

/-- `SdmmcState::cmd25_write_multiple_block`. -/
def SdmmcState.cmd25_write_multiple_block (s : SdmmcState) (arg : Nat) :
    SdmmcState :=
  let sector := arg
  let blocks := if s.data32_blk_len > 0 then s.data32_blk_count else s.blkcount
  let block_len := if s.data32_blk_len > 0 then s.data32_blk_len else s.blklen
  let s := { s with
      transfer_start_addr := sector
      transfer_blocks_remaining := blocks
      transfer_pos := 0 }
  let s := s.set_state .receive
  let s := { s with transfer_buffer := List.replicate block_len 0 }
  let s := (s.set_response_32 s.get_r1_response).command_end
  { s with status1 := s.status1 ||| TMIO_STAT1_TXRQ }

/-- `SdmmcState::cmd55_app_cmd` (the R1 response is produced after the flag
is set, so it reports the app-command bit). -/
def SdmmcState.cmd55_app_cmd (s : SdmmcState) : SdmmcState :=
  let s := { s with app_command_next := true }
  (s.set_response_32 s.get_r1_response).command_end

/-- `SdmmcState::acmd6_set_bus_width`. -/
def SdmmcState.acmd6_set_bus_width (s : SdmmcState) (_arg : Nat) : SdmmcState :=
  (s.set_response_32 s.get_r1_response).command_end

/-- `SdmmcState::acmd13_sd_status`. -/
def SdmmcState.acmd13_sd_status (s : SdmmcState) : SdmmcState :=
  let s := s.set_response_32 s.get_r1_response
  let s := { s with transfer_buffer := List.replicate 64 0, transfer_pos := 0 }
  let s := s.command_end
  { s with status1 := s.status1 ||| TMIO_STAT1_RXRDY }

/-- `SdmmcState::acmd41_sd_send_op_cond`. -/
def SdmmcState.acmd41_sd_send_op_cond (s : SdmmcState) (_arg : Nat) :
    SdmmcState :=
  let ocr := if s.nand_selected then 0x80FF8080 else 0x80FF8080 ||| (1 <<< 30)
  let s := (s.set_response_32 ocr).command_end
  if s.get_state = .idle then s.set_state .ready else s

/-- `SdmmcState::acmd42_set_clr_card_detect`. -/
def SdmmcState.acmd42_set_clr_card_detect (s : SdmmcState) : SdmmcState :=
  (s.set_response_32 s.get_r1_response).command_end

/-- `SdmmcState::acmd51_send_scr`. -/
def SdmmcState.acmd51_send_scr (s : SdmmcState) : SdmmcState :=
  let s := s.set_response_32 s.get_r1_response
  let s := { s with
      transfer_buffer := [0, 0x00, 0x00, 0x2a, 0x01, 0x00, 0x00, 0x00]
      transfer_pos := 0 }
  let s := s.command_end
  { s with status1 := s.status1 ||| TMIO_STAT1_RXRDY }

/-- `SdmmcState::execute_cmd`. -/
def SdmmcState.execute_cmd (s : SdmmcState) (cmd arg : Nat) : SdmmcState :=
  match cmd with
  | 0 => s.cmd0_go_idle_state
  | 1 => s.cmd1_send_op_cond
  | 2 => s.cmd2_all_send_cid
  | 3 => s.cmd3_send_relative_addr arg
  | 7 => s.cmd7_select_card
  | 8 => s.cmd8_send_if_cond
  | 9 => s.cmd9_send_csd
  | 10 => s.cmd10_send_cid
  | 12 => s.cmd12_stop_transmission
  | 13 => s.cmd13_send_status
  | 16 => s.cmd16_set_blocklen arg
  | 18 => s.cmd18_read_multiple_block arg
  | 25 => s.cmd25_write_multiple_block arg
  | 55 => s.cmd55_app_cmd
  | _ => s.command_end

/-- `SdmmcState::execute_acmd`. -/
def SdmmcState.execute_acmd (s : SdmmcState) (cmd arg : Nat) : SdmmcState :=
  match cmd with
  | 6 => s.acmd6_set_bus_width arg
  | 13 => s.acmd13_sd_status
  | 41 => s.acmd41_sd_send_op_cond arg
  | 42 => s.acmd42_set_clr_card_detect
  | 51 => s.acmd51_send_scr
  | _ => s.command_end

/-- `SdmmcState::handle_block_complete_read`. The Rust
`self.blkcount - self.transfer_blocks_remaining` is wrapping u16
subtraction (release profile; the debug profile panics on underflow),
embedded as `(blkcount + 2^16 - remaining) % 2^16`; the subsequent u32
addition wraps modulo 2^32. -/
def SdmmcState.handle_block_complete_read (s : SdmmcState) : SdmmcState :=
  if s.transfer_blocks_remaining > 0 then
    let s := { s with
        transfer_blocks_remaining := s.transfer_blocks_remaining - 1
        transfer_pos := 0 }
    if s.transfer_blocks_remaining = 0 then
      let s := { s with
          status0 := s.status0 ||| TMIO_STAT0_DATAEND
          transfer_buffer := [] }
      s.set_state .transfer
    else
      let next_sector :=
        (s.transfer_start_addr +
          (s.blkcount + 65536 - s.transfer_blocks_remaining) % 65536) %
          4294967296
      let s :=
        if s.portsel = 0 then
          match s.sd_file with
          | some f =>
            { s with transfer_buffer :=
                fileReadBytes f (next_sector * 512) s.transfer_buffer.length }
          | none => s
        else s
      { s with status1 := s.status1 ||| TMIO_STAT1_RXRDY }
  else s

/-- `SdmmcState::handle_block_complete_write`. `current_sector` uses the
remaining-block count before the decrement; the u16 subtraction wraps as in
`handle_block_complete_read`. -/
def SdmmcState.handle_block_complete_write (s : SdmmcState) : SdmmcState :=
  let current_sector :=
    (s.transfer_start_addr +
      (s.blkcount + 65536 - s.transfer_blocks_remaining) % 65536) % 4294967296
  let s :=
    if s.portsel = 0 then
      match s.sd_file with
      | some f =>
        { s with sd_file := some (fileWriteBytes f (current_sector * 512) s.transfer_buffer) }
      | none => s
    else s
  if s.transfer_blocks_remaining > 0 then
    let s := { s with
        transfer_blocks_remaining := s.transfer_blocks_remaining - 1
        transfer_pos := 0 }
    if s.transfer_blocks_remaining = 0 then
      let s := { s with
          status0 := s.status0 ||| TMIO_STAT0_DATAEND
          transfer_buffer := [] }
      s.set_state .transfer
    else
      { s with status1 := s.status1 ||| TMIO_STAT1_TXRQ }
  else s

/-- `SdmmcState::read_fifo32`: drain 4 bytes little-endian when in range,
else log and return 0 with the state untouched. -/
def SdmmcState.read_fifo32 (s : SdmmcState) : SdmmcState × Nat :=
  if s.transfer_pos + 4 ≤ s.transfer_buffer.length then
    let value :=
      s.transfer_buffer.getD s.transfer_pos 0 +
      s.transfer_buffer.getD (s.transfer_pos + 1) 0 * 256 +
      s.transfer_buffer.getD (s.transfer_pos + 2) 0 * 65536 +
      s.transfer_buffer.getD (s.transfer_pos + 3) 0 * 16777216
    let s := { s with transfer_pos := s.transfer_pos + 4 }
    if s.transfer_buffer.length ≤ s.transfer_pos then
      (s.handle_block_complete_read, value)
    else
      (s, value)
  else
    (s, 0)

/-- `SdmmcState::write_fifo32`: fill 4 bytes little-endian when in range,
else log and discard. -/
def SdmmcState.write_fifo32 (s : SdmmcState) (value : Nat) : SdmmcState :=
  if s.transfer_pos + 4 ≤ s.transfer_buffer.length then
    let buf :=
      (((s.transfer_buffer.set s.transfer_pos (value % 256)).set
        (s.transfer_pos + 1) ((value >>> 8) % 256)).set
        (s.transfer_pos + 2) ((value >>> 16) % 256)).set
        (s.transfer_pos + 3) ((value >>> 24) % 256)
    let s := { s with transfer_buffer := buf, transfer_pos := s.transfer_pos + 4 }
    if s.transfer_buffer.length ≤ s.transfer_pos then
      s.handle_block_complete_write
    else
      s
  else
    s

/-- `SdmmcState::write`: register-write dispatch (the ignored `_size`
argument is dropped). -/
def SdmmcState.write (s : SdmmcState) (offset value : Nat) : SdmmcState :=
  match offset with
  | 0x000 =>
    let s := { s with cmd := value % 65536 }
    let cmdNum := value &&& 0x3F
    let arg := s.get_argument
    let s := { s with status1 := s.status1 ||| TMIO_STAT1_CMD_BUSY }
    if s.app_command_next then
      ({ s with app_command_next := false }).execute_acmd cmdNum arg
    else
      s.execute_cmd cmdNum arg
  | 0x002 => { s with portsel := value % 65536 }
  | 0x004 => { s with cmdarg0 := value % 65536 }
  | 0x006 => { s with cmdarg1 := value % 65536 }
  | 0x008 => { s with stop := value % 65536 }
  | 0x00a => { s with blkcount := value % 65536 }
  | 0x00c => { s with resp := s.resp.set 0 (value % 65536) }
  | 0x00e => { s with resp := s.resp.set 1 (value % 65536) }
  | 0x010 => { s with resp := s.resp.set 2 (value % 65536) }
  | 0x012 => { s with resp := s.resp.set 3 (value % 65536) }
  | 0x014 => { s with resp := s.resp.set 4 (value % 65536) }
  | 0x016 => { s with resp := s.resp.set 5 (value % 65536) }
  | 0x018 => { s with resp := s.resp.set 6 (value % 65536) }
  | 0x01a => { s with resp := s.resp.set 7 (value % 65536) }
  | 0x01c => { s with status0 := s.status0 &&& (value % 65536) }
  | 0x01e => { s with status1 := s.status1 &&& (value % 65536) }
  | 0x020 => { s with irq_mask0 := value % 65536 }
  | 0x022 => { s with irq_mask1 := value % 65536 }
  | 0x024 => { s with clkctl := value % 65536 }
  | 0x026 => { s with blklen := value % 65536 }
  | 0x028 => { s with opt := value % 65536 }
  | 0x02c => { s with error_detail_status0 := value % 65536 }
  | 0x02e => { s with error_detail_status1 := value % 65536 }
  | 0x030 => { s with fifo := value % 65536 }
  | 0x0d8 => { s with data_ctl := value % 65536 }
  | 0x0e0 => { s with reset := value % 65536 }
  | 0x100 => { s with data32_irq := value % 65536 }
  | 0x104 => { s with data32_blk_len := value % 65536 }
  | 0x108 => { s with data32_blk_count := value % 65536 }
  | 0x10c => ({ s with data32_fifo := value }).write_fifo32 value
  | _ => s

/-- `SdmmcState::read`: register-read dispatch; returns the (possibly
updated) state and the read value. Only the DATA32_FIFO arm mutates. -/
def SdmmcState.read (s : SdmmcState) (offset : Nat) : SdmmcState × Nat :=
  match offset with
  | 0x000 => (s, s.cmd)
  | 0x002 => (s, s.portsel)
  | 0x004 => (s, s.cmdarg0)
  | 0x006 => (s, s.cmdarg1)
  | 0x008 => (s, s.stop)
  | 0x00a => (s, s.blkcount)
  | 0x00c => (s, s.resp.getD 0 0)
  | 0x00e => (s, s.resp.getD 1 0)
  | 0x010 => (s, s.resp.getD 2 0)
  | 0x012 => (s, s.resp.getD 3 0)
  | 0x014 => (s, s.resp.getD 4 0)
  | 0x016 => (s, s.resp.getD 5 0)
  | 0x018 => (s, s.resp.getD 6 0)
  | 0x01a => (s, s.resp.getD 7 0)
  | 0x01c => (s, (s.status0 ||| TMIO_STAT0_CARD_INSERTED) ||| TMIO_STAT0_WRPROTECT)
  | 0x01e => (s, s.status1)
  | 0x020 => (s, s.irq_mask0)
  | 0x022 => (s, s.irq_mask1)
  | 0x024 => (s, s.clkctl)
  | 0x026 => (s, s.blklen)
  | 0x028 => (s, s.opt)
  | 0x02c => (s, s.error_detail_status0)
  | 0x02e => (s, s.error_detail_status1)
  | 0x030 => (s, s.fifo)
  | 0x0d8 => (s, s.data_ctl)
  | 0x0e0 => (s, s.reset)
  | 0x100 =>
    let val := s.data32_irq
    let val := if s.status1 &&& TMIO_STAT1_RXRDY ≠ 0 then val ||| 0x100 else val
    let val := if s.status1 &&& TMIO_STAT1_TXRQ = 0 then val ||| 0x200 else val
    (s, val)
  | 0x104 => (s, s.data32_blk_len)
  | 0x108 => (s, s.data32_blk_count)
  | 0x10c => s.read_fifo32
  | _ => (s, 0)

/-! ## GPU register model (crates/threemu/src/mmio/gpu.rs,
crates/oxidiz3ds-hw/src/mmio/gpu.rs) -/

/-- Register offsets from `oxidiz3ds_hw::mmio::gpu::registers`. -/
def FRAMEBUFFER_TOP_LEFT : Nat := 0x468
def FRAMEBUFFER_TOP_FORMAT : Nat := 0x470
def FRAMEBUFFER_TOP_STRIDE : Nat := 0x490
def FRAMEBUFFER_TOP_RIGHT : Nat := 0x494
def FRAMEBUFFER_BOTTOM_LEFT : Nat := 0x568
def FRAMEBUFFER_BOTTOM_FORMAT : Nat := 0x570
def FRAMEBUFFER_BOTTOM_STRIDE : Nat := 0x590

/-- `PixelFormat` from gpu.rs. -/
inductive PixelFormat where
  | rgba8
  | rgb8
  | rgb565
  | rgb5a1
  | rgba4
  | unknown
deriving DecidableEq, Repr

/-- The `#[repr(u32)]` discriminant of a `PixelFormat` (`Unknown = 0xFF`),
i.e. the value produced by `self.top_format as u32` on read. -/
def PixelFormat.toU32 : PixelFormat → Nat
  | .rgba8 => 0
  | .rgb8 => 1
  | .rgb565 => 2
  | .rgb5a1 => 3
  | .rgba4 => 4
  | .unknown => 0xFF

/-- `impl From<u32> for PixelFormat`: decode `value & 0x7` (the low three
bits, i.e. `value % 8`). -/
def PixelFormat.ofU32 (value : Nat) : PixelFormat :=
  match value % 8 with
  | 0 => .rgba8
  | 1 => .rgb8
  | 2 => .rgb565
  | 3 => .rgb5a1
  | 4 => .rgba4
  | _ => .unknown

/-- `GpuState` from gpu.rs. -/
structure GpuState where
  top_left_addr : Nat
  top_right_addr : Nat
  top_format : PixelFormat
  top_stride : Nat
  bottom_addr : Nat
  bottom_format : PixelFormat
  bottom_stride : Nat
deriving DecidableEq, Repr

/-- `GpuState::new`. -/
def GpuState.new : GpuState :=
  { top_left_addr := 0, top_right_addr := 0, top_format := .unknown
    top_stride := 0, bottom_addr := 0, bottom_format := .unknown
    bottom_stride := 0 }

/-- `GpuState::write` (the ignored `_size` argument is dropped; unknown
offsets only log). -/
def GpuState.write (g : GpuState) (offset value : Nat) : GpuState :=
  if offset = FRAMEBUFFER_TOP_LEFT then { g with top_left_addr := value }
  else if offset = FRAMEBUFFER_TOP_RIGHT then { g with top_right_addr := value }
  else if offset = FRAMEBUFFER_TOP_FORMAT then
    { g with top_format := PixelFormat.ofU32 value }
  else if offset = FRAMEBUFFER_TOP_STRIDE then { g with top_stride := value }
  else if offset = FRAMEBUFFER_BOTTOM_LEFT then { g with bottom_addr := value }
  else if offset = FRAMEBUFFER_BOTTOM_FORMAT then
    { g with bottom_format := PixelFormat.ofU32 value }
  else if offset = FRAMEBUFFER_BOTTOM_STRIDE then { g with bottom_stride := value }
  else g

/-- `GpuState::read` (unknown offsets log and return 0). -/
def GpuState.read (g : GpuState) (offset : Nat) : Nat :=
  if offset = FRAMEBUFFER_TOP_LEFT then g.top_left_addr
  else if offset = FRAMEBUFFER_TOP_RIGHT then g.top_right_addr
  else if offset = FRAMEBUFFER_TOP_FORMAT then g.top_format.toU32
  else if offset = FRAMEBUFFER_TOP_STRIDE then g.top_stride
  else if offset = FRAMEBUFFER_BOTTOM_LEFT then g.bottom_addr
  else if offset = FRAMEBUFFER_BOTTOM_FORMAT then g.bottom_format.toU32
  else if offset = FRAMEBUFFER_BOTTOM_STRIDE then g.bottom_stride
  else 0

/-! ## FIRM header parsing (crates/threemu/src/firm.rs) -/

/-- `FirmError` from firm.rs. -/
inductive FirmError where
  | fileTooSmall
  | invalidMagic
deriving DecidableEq, Repr

/-- `FirmSectionHeader` from firm.rs (the 32-byte hash kept as a byte list). -/
structure FirmSectionHeader where
  offset : Nat
  load_address : Nat
  size : Nat
  copy_method : Nat
  hash : List Nat
deriving DecidableEq, Repr

/-- `FirmHeader` from firm.rs. -/
structure FirmHeader where
  magic : List Nat
  boot_priority : Nat
  arm11_entrypoint : Nat
  arm9_entrypoint : Nat
  reserved : List Nat
  sections : List FirmSectionHeader
  signature : List Nat
deriving DecidableEq, Repr

/-- `u32::from_le_bytes(data[i..i+4])`. -/
def leU32At (data : List Nat) (i : Nat) : Nat :=
  data.getD i 0 + data.getD (i + 1) 0 * 256 + data.getD (i + 2) 0 * 65536 +
    data.getD (i + 3) 0 * 16777216

/-- The bytes of `b"FIRM"`. -/
def firmMagicBytes : List Nat := [0x46, 0x49, 0x52, 0x4D]

/-- One `FirmSectionHeader` parsed at byte offset `base` (firm.rs parse loop
body). -/
def parseFirmSection (data : List Nat) (base : Nat) : FirmSectionHeader :=
  { offset := leU32At data base
    load_address := leU32At data (base + 4)
    size := leU32At data (base + 8)
    copy_method := leU32At data (base + 12)
    hash := ((data.drop (base + 16)).take 32) }

/-- `FirmHeader::parse`. -/
def FirmHeader.parse (data : List Nat) : Except FirmError FirmHeader :=
  if data.length < 0x200 then
    .error .fileTooSmall
  else if data.take 4 ≠ firmMagicBytes then
    .error .invalidMagic
  else
    .ok
      { magic := data.take 4
        boot_priority := leU32At data 0x004
        arm11_entrypoint := leU32At data 0x008
        arm9_entrypoint := leU32At data 0x00C
        reserved := (data.drop 0x010).take 0x30
        sections := (List.range 4).map (fun i => parseFirmSection data (0x040 + i * 0x30))
        signature := (data.drop 0x100).take 0x100 }

/-! ## Theorems: scheduler -/

/-- Helper: the ARM9 half of a quantum does nothing when the core is already
stopped. -/
theorem run_quantum_arm9_stopped (s : Scheduler) (r : EmuResult)
    (h : s.arm9_stopped = true) : s.run_quantum_arm9 r = (s, none) := by
  unfold Scheduler.run_quantum_arm9
  simp [h]

/-- Helper: the ARM11 half of a quantum does nothing when the core is already
stopped. -/
theorem run_quantum_arm11_stopped (s : Scheduler) (r : EmuResult)
    (h : s.arm11_stopped = true) : s.run_quantum_arm11 r = (s, none) := by
  unfold Scheduler.run_quantum_arm11
  simp [h]

/-- C1: when every core that is not stopped at the start of `run_quantum`
completes its bounded execution successfully, the total-executed counter
grows by exactly the sum of the configured quantum sizes of the cores that
were not stopped at the start; a core whose stopped flag was set
contributes zero. -/
theorem C1_run_quantum_total_executed (s : Scheduler) (r9 r11 : EmuResult)
    (h9 : s.arm9_stopped = false → ∃ pc, r9 = .ok pc)
    (h11 : s.arm11_stopped = false → ∃ pc, r11 = .ok pc) :
    (s.run_quantum r9 r11).1.total_executed =
      s.total_executed +
        (if s.arm9_stopped then 0 else s.config.arm9_quantum) +
        (if s.arm11_stopped then 0 else s.config.arm11_quantum) := by
  by_cases h9s : s.arm9_stopped = true
  · by_cases h11s : s.arm11_stopped = true
    · simp [Scheduler.run_quantum, run_quantum_arm9_stopped s r9 h9s,
        run_quantum_arm11_stopped s r11 h11s, h9s, h11s]
    · simp only [Bool.not_eq_true] at h11s
      obtain ⟨pc, rfl⟩ := h11 h11s
      by_cases hp : s.config.arm11_stop_pc = some pc <;>
        simp [Scheduler.run_quantum, run_quantum_arm9_stopped s _ h9s,
          Scheduler.run_quantum_arm11, Scheduler.is_arm11_stop_pc,
          h9s, h11s, hp]
  · simp only [Bool.not_eq_true] at h9s
    obtain ⟨pc9, rfl⟩ := h9 h9s
    by_cases h11s : s.arm11_stopped = true
    · by_cases hp9 : s.config.arm9_stop_pc = some pc9 <;>
        simp [Scheduler.run_quantum, Scheduler.run_quantum_arm9,
          Scheduler.run_quantum_arm11, Scheduler.is_arm9_stop_pc,
          h9s, h11s, hp9]
    · simp only [Bool.not_eq_true] at h11s
      obtain ⟨pc11, rfl⟩ := h11 h11s
      by_cases hp9 : s.config.arm9_stop_pc = some pc9 <;>
        by_cases hp11 : s.config.arm11_stop_pc = some pc11 <;>
          simp [Scheduler.run_quantum, Scheduler.run_quantum_arm9,
            Scheduler.run_quantum_arm11, Scheduler.is_arm9_stop_pc,
            Scheduler.is_arm11_stop_pc, h9s, h11s, hp9, hp11]

/-- Witness for C1 at a concrete scheduler: neither core stopped, both
engine runs succeed, counter grows by both quanta. -/
theorem C1_run_quantum_total_executed_witness :
    (Scheduler.run_quantum
      { config := { arm9_quantum := 7, arm11_quantum := 13,
                    arm9_stop_pc := none, arm11_stop_pc := none,
                    max_instructions := none }
        arm9_pc := 0, arm11_pc := 0, total_executed := 100
        arm9_stopped := false, arm11_stopped := false }
      (.ok 4) (.ok 8)).1.total_executed = 100 + 7 + 13 := by
  have h := C1_run_quantum_total_executed
    { config := { arm9_quantum := 7, arm11_quantum := 13,
                  arm9_stop_pc := none, arm11_stop_pc := none,
                  max_instructions := none }
      arm9_pc := 0, arm11_pc := 0, total_executed := 100
      arm9_stopped := false, arm11_stopped := false }
    (.ok 4) (.ok 8) (fun _ => ⟨4, rfl⟩) (fun _ => ⟨8, rfl⟩)
  simpa using h

/-- Helper: the ARM9 half of a quantum never touches the ARM11 fields or the
configuration. -/
theorem run_quantum_arm9_preserves (s : Scheduler) (r : EmuResult) :
    (s.run_quantum_arm9 r).1.arm11_pc = s.arm11_pc ∧
    (s.run_quantum_arm9 r).1.arm11_stopped = s.arm11_stopped ∧
    (s.run_quantum_arm9 r).1.config = s.config := by
  by_cases h : s.arm9_stopped = true
  · simp [run_quantum_arm9_stopped s r h]
  · simp only [Bool.not_eq_true] at h
    cases r with
    | ok pc =>
      by_cases hp : s.config.arm9_stop_pc = some pc <;>
        simp [Scheduler.run_quantum_arm9, Scheduler.is_arm9_stop_pc, h, hp]
    | err pc =>
      by_cases hp : s.config.arm9_stop_pc = some pc <;>
        simp [Scheduler.run_quantum_arm9, Scheduler.is_arm9_stop_pc, h, hp]

/-- Helper: the ARM11 half of a quantum never touches the ARM9 fields or the
configuration. -/
theorem run_quantum_arm11_preserves (s : Scheduler) (r : EmuResult) :
    (s.run_quantum_arm11 r).1.arm9_pc = s.arm9_pc ∧
    (s.run_quantum_arm11 r).1.arm9_stopped = s.arm9_stopped ∧
    (s.run_quantum_arm11 r).1.config = s.config := by
  by_cases h : s.arm11_stopped = true
  · simp [run_quantum_arm11_stopped s r h]
  · simp only [Bool.not_eq_true] at h
    cases r with
    | ok pc =>
      by_cases hp : s.config.arm11_stop_pc = some pc <;>
        simp [Scheduler.run_quantum_arm11, Scheduler.is_arm11_stop_pc, h, hp]
    | err pc =>
      by_cases hp : s.config.arm11_stop_pc = some pc <;>
        simp [Scheduler.run_quantum_arm11, Scheduler.is_arm11_stop_pc, h, hp]

/-- Helper: with ARM9 already stopped, a full quantum is just the ARM11
half. -/
theorem run_quantum_of_arm9_stopped (s : Scheduler) (r9 r11 : EmuResult)
    (h : s.arm9_stopped = true) :
    s.run_quantum r9 r11 = ((s.run_quantum_arm11 r11).1,
      match (s.run_quantum_arm11 r11).2 with
      | some e => e
      | none => .cont) := by
  unfold Scheduler.run_quantum
  rw [run_quantum_arm9_stopped s r9 h]
  rcases hE : s.run_quantum_arm11 r11 with ⟨s2, o2⟩
  cases o2 <;> simp [hE]

/-- Helper: the ARM9 stopped flag is never cleared by a quantum. -/
theorem run_quantum_arm9_stopped_mono (s : Scheduler) (r9 r11 : EmuResult)
    (h : s.arm9_stopped = true) :
    (s.run_quantum r9 r11).1.arm9_stopped = true := by
  rw [run_quantum_of_arm9_stopped s r9 r11 h]
  have := (run_quantum_arm11_preserves s r11).2.1
  simpa [this] using h

/-- Helper: the ARM11 stopped flag is never cleared by a quantum. -/
theorem run_quantum_arm11_stopped_mono (s : Scheduler) (r9 r11 : EmuResult)
    (h : s.arm11_stopped = true) :
    (s.run_quantum r9 r11).1.arm11_stopped = true := by
  unfold Scheduler.run_quantum
  rcases hE : s.run_quantum_arm9 r9 with ⟨s1, o1⟩
  have h1 : s1.arm11_stopped = true := by
    have := (run_quantum_arm9_preserves s r9).2.1
    rw [hE] at this
    simp at this
    rw [this]
    exact h
  cases o1 with
  | some e => simpa using h1
  | none => simp [run_quantum_arm11_stopped s1 r11 h1, h1]

/-- C7: a core whose stopped flag is set at the start of `run_quantum` has
its engine left uninvoked (the quantum's result does not depend on that
core's engine oracle), its PC and its stopped flag are left unchanged; and
`run_quantum` never clears a stopped flag. (`run_quantum` is the only
state-mutating scheduler operation; the accessors and
`check_stop_conditions` take `&self` and cannot mutate.) -/
theorem C7_stopped_core_untouched (s : Scheduler) (r9 r9a r11 r11a : EmuResult) :
    (s.arm9_stopped = true →
      s.run_quantum r9 r11 = s.run_quantum r9a r11 ∧
      (s.run_quantum r9 r11).1.arm9_pc = s.arm9_pc ∧
      (s.run_quantum r9 r11).1.arm9_stopped = true) ∧
    (s.arm11_stopped = true →
      s.run_quantum r9 r11 = s.run_quantum r9 r11a ∧
      (s.run_quantum r9 r11).1.arm11_pc = s.arm11_pc ∧
      (s.run_quantum r9 r11).1.arm11_stopped = true) ∧
    (s.arm9_stopped = true → (s.run_quantum r9 r11).1.arm9_stopped = true) ∧
    (s.arm11_stopped = true → (s.run_quantum r9 r11).1.arm11_stopped = true) := by
  refine ⟨?_, ?_, fun h => run_quantum_arm9_stopped_mono s r9 r11 h,
    fun h => run_quantum_arm11_stopped_mono s r9 r11 h⟩
  · intro h
    refine ⟨?_, ?_, run_quantum_arm9_stopped_mono s r9 r11 h⟩
    · rw [run_quantum_of_arm9_stopped s r9 r11 h,
        run_quantum_of_arm9_stopped s r9a r11 h]
    · rw [run_quantum_of_arm9_stopped s r9 r11 h]
      exact (run_quantum_arm11_preserves s r11).1
  · intro h
    refine ⟨?_, ?_, run_quantum_arm11_stopped_mono s r9 r11 h⟩
    · unfold Scheduler.run_quantum
      rcases hE : s.run_quantum_arm9 r9 with ⟨s1, o1⟩
      have h1 : s1.arm11_stopped = true := by
        have := (run_quantum_arm9_preserves s r9).2.1
        rw [hE] at this
        simp at this
        rw [this]
        exact h
      cases o1 with
      | some e => rfl
      | none =>
        simp [run_quantum_arm11_stopped s1 r11 h1,
          run_quantum_arm11_stopped s1 r11a h1]
    · unfold Scheduler.run_quantum
      rcases hE : s.run_quantum_arm9 r9 with ⟨s1, o1⟩
      have hpc : s1.arm11_pc = s.arm11_pc := by
        have := (run_quantum_arm9_preserves s r9).1
        rw [hE] at this
        simpa using this
      have h1 : s1.arm11_stopped = true := by
        have := (run_quantum_arm9_preserves s r9).2.1
        rw [hE] at this
        simp at this
        rw [this]
        exact h
      cases o1 with
      | some e => simpa using hpc
      | none => simp [run_quantum_arm11_stopped s1 r11 h1, hpc]

/-- Witness for C7 at a concrete scheduler with ARM9 stopped. -/
theorem C7_stopped_core_untouched_witness :
    (Scheduler.run_quantum
      { config := { arm9_quantum := 7, arm11_quantum := 13,
                    arm9_stop_pc := none, arm11_stop_pc := none,
                    max_instructions := none }
        arm9_pc := 42, arm11_pc := 0, total_executed := 0
        arm9_stopped := true, arm11_stopped := false }
      (.ok 4) (.ok 8) =
     Scheduler.run_quantum
      { config := { arm9_quantum := 7, arm11_quantum := 13,
                    arm9_stop_pc := none, arm11_stop_pc := none,
                    max_instructions := none }
        arm9_pc := 42, arm11_pc := 0, total_executed := 0
        arm9_stopped := true, arm11_stopped := false }
      (.err 999) (.ok 8)) ∧
    (Scheduler.run_quantum
      { config := { arm9_quantum := 7, arm11_quantum := 13,
                    arm9_stop_pc := none, arm11_stop_pc := none,
                    max_instructions := none }
        arm9_pc := 42, arm11_pc := 0, total_executed := 0
        arm9_stopped := true, arm11_stopped := false }
      (.ok 4) (.ok 8)).1.arm9_pc = 42 := by
  have h := C7_stopped_core_untouched
    { config := { arm9_quantum := 7, arm11_quantum := 13,
                  arm9_stop_pc := none, arm11_stop_pc := none,
                  max_instructions := none }
      arm9_pc := 42, arm11_pc := 0, total_executed := 0
      arm9_stopped := true, arm11_stopped := false }
    (.ok 4) (.err 999) (.ok 8) (.ok 8)
  exact ⟨(h.1 rfl).1, (h.1 rfl).2.1⟩

/-- Helper: `check_stop_conditions` holds exactly when both cores are
stopped, or one core's PC equals its configured stop PC, or the
max-instruction bound has been reached. Note the single-core PC clauses:
one matching PC suffices. -/
theorem check_stop_conditions_spec (s : Scheduler) :
    s.check_stop_conditions = true ↔
      ((s.arm9_stopped = true ∧ s.arm11_stopped = true) ∨
       (∃ pc, s.config.arm9_stop_pc = some pc ∧ s.arm9_pc = pc) ∨
       (∃ pc, s.config.arm11_stop_pc = some pc ∧ s.arm11_pc = pc) ∨
       (∃ m, s.config.max_instructions = some m ∧ m ≤ s.total_executed)) := by
  unfold Scheduler.check_stop_conditions
  rcases h9 : s.config.arm9_stop_pc with _ | pc9 <;>
    rcases h11 : s.config.arm11_stop_pc with _ | pc11 <;>
    rcases hm : s.config.max_instructions with _ | m <;>
    by_cases hs : s.arm9_stopped = true ∧ s.arm11_stopped = true <;>
    simp [h9, h11, hm, hs]

/-- The concrete run used to refute C2: ARM9's entry PC already equals its
configured stop PC, ARM11 is runnable with a distinct stop PC, no
max-instruction bound, and the timeout never fires. -/
def c2Scheduler : Scheduler :=
  { config := { arm9_quantum := 10, arm11_quantum := 20,
                arm9_stop_pc := some 100, arm11_stop_pc := some 200,
                max_instructions := none }
    arm9_pc := 100, arm11_pc := 0, total_executed := 0
    arm9_stopped := false, arm11_stopped := false }

/-- C2 as stated is false: the run loop returns the stop-condition outcome
as soon as a single context's PC equals its configured stop PC.  Here ARM9
sits on its stop PC, ARM11 is runnable (not stopped, away from its stop
PC), no max-instruction bound is configured and the timeout never fires,
yet `run` returns `StopCondition` at the very first round boundary. -/
theorem C2_counterexample :
    runCore 1 0 c2Scheduler (fun _ => false) (fun _ => .ok 0) (fun _ => .ok 0) =
      some (.stopCondition, c2Scheduler, 0) ∧
    c2Scheduler.arm11_stopped = false ∧
    c2Scheduler.arm11_pc = 0 ∧
    c2Scheduler.config.arm11_stop_pc = some 200 ∧
    c2Scheduler.config.max_instructions = none := by
  refine ⟨?_, rfl, rfl, rfl, rfl⟩
  rfl

/-- C2 amended: whenever the run loop returns the stop-condition outcome, it
does so at a round boundary, and at that boundary either both contexts are
stopped, or ARM9's PC equals its configured stop PC, or ARM11's PC equals
its configured stop PC, or the max-instruction bound has been reached, or
the wall-clock timeout has fired — a single context reaching its stop PC is
sufficient. -/
theorem C2_amended_stop_condition (fuel round : Nat) (s : Scheduler)
    (tmo : Nat → Bool) (e9 e11 : Nat → EmuResult) (sf : Scheduler) (rf : Nat)
    (h : runCore fuel round s tmo e9 e11 = some (.stopCondition, sf, rf)) :
    (sf.arm9_stopped = true ∧ sf.arm11_stopped = true) ∨
    (∃ pc, sf.config.arm9_stop_pc = some pc ∧ sf.arm9_pc = pc) ∨
    (∃ pc, sf.config.arm11_stop_pc = some pc ∧ sf.arm11_pc = pc) ∨
    (∃ m, sf.config.max_instructions = some m ∧ m ≤ sf.total_executed) ∨
    tmo rf = true := by
  induction fuel generalizing round s with
  | zero => simp [runCore] at h
  | succ fuel ih =>
    rw [runCore] at h
    by_cases hstop : should_stop s (tmo round) = true
    · rw [if_pos hstop] at h
      obtain ⟨rfl, rfl⟩ : sf = s ∧ rf = round := by
        simpa using h.symm
      unfold should_stop at hstop
      by_cases hc : sf.check_stop_conditions = true
      · rcases (check_stop_conditions_spec sf).mp hc with h4 | h4 | h4 | h4
        · exact Or.inl h4
        · exact Or.inr (Or.inl h4)
        · exact Or.inr (Or.inr (Or.inl h4))
        · exact Or.inr (Or.inr (Or.inr (Or.inl h4)))
      · simp [hc] at hstop
        exact Or.inr (Or.inr (Or.inr (Or.inr hstop)))
    · rw [if_neg hstop] at h
      rcases hq2 : Scheduler.run_quantum s (e9 round) (e11 round) with ⟨s1, q⟩
      rw [hq2] at h
      cases q with
      | error => simp at h
      | cont => exact ih (round + 1) s1 h

/-- Witness for C2's amended theorem at the concrete run of the
counterexample. -/
theorem C2_amended_stop_condition_witness :
    (c2Scheduler.arm9_stopped = true ∧ c2Scheduler.arm11_stopped = true) ∨
    (∃ pc, c2Scheduler.config.arm9_stop_pc = some pc ∧ c2Scheduler.arm9_pc = pc) ∨
    (∃ pc, c2Scheduler.config.arm11_stop_pc = some pc ∧ c2Scheduler.arm11_pc = pc) ∨
    (∃ m, c2Scheduler.config.max_instructions = some m ∧
      m ≤ c2Scheduler.total_executed) ∨
    (fun _ => false : Nat → Bool) 0 = true :=
  C2_amended_stop_condition 1 0 c2Scheduler (fun _ => false) (fun _ => .ok 0)
    (fun _ => .ok 0) c2Scheduler 0 (by rfl)

/-! ## Theorems: FIRM header parsing -/

/-- A concrete 0x200-byte FIRM image: magic `"FIRM"`, boot priority 0,
ARM11 entry `0x1000` at offset 0x008, ARM9 entry `0x800` at offset 0x00C,
all remaining bytes zero. -/
def firmExample : List Nat :=
  [0x46, 0x49, 0x52, 0x4D,
   0x00, 0x00, 0x00, 0x00,
   0x00, 0x10, 0x00, 0x00,
   0x00, 0x08, 0x00, 0x00] ++ List.replicate 0x1F0 0

set_option maxRecDepth 8000 in
/-- C5: FIRM parsing fails with the too-small error exactly on buffers
shorter than 0x200 bytes; on buffers of at least 0x200 bytes it fails with
the invalid-magic error exactly when the first four bytes are not `"FIRM"`;
and the concrete 0x200-byte buffer with magic `"FIRM"` and little-endian
entry fields `0x1000` (offset 0x008) / `0x0800` (offset 0x00C) parses
successfully into exactly those ARM11 / ARM9 entry points. -/
theorem C5_firm_parse (data : List Nat) :
    (FirmHeader.parse data = .error .fileTooSmall ↔ data.length < 0x200) ∧
    (0x200 ≤ data.length →
      (FirmHeader.parse data = .error .invalidMagic ↔
        data.take 4 ≠ firmMagicBytes)) ∧
    (FirmHeader.parse firmExample).map
      (fun h => (h.arm11_entrypoint, h.arm9_entrypoint)) = .ok (0x1000, 0x800) := by
  refine ⟨?_, ?_, by rfl⟩
  · unfold FirmHeader.parse
    by_cases hlen : data.length < 0x200
    · simp [hlen]
    · by_cases hmagic : data.take 4 ≠ firmMagicBytes <;> simp [hlen, hmagic]
  · intro hlen
    have hlen2 : ¬data.length < 0x200 := by omega
    unfold FirmHeader.parse
    by_cases hmagic : data.take 4 ≠ firmMagicBytes <;> simp [hlen2, hmagic]

set_option maxRecDepth 8000 in
/-- Witness for C5: a 0x1FF-byte buffer is rejected as too small, and the
0x1FF-prefix facts follow by applying the theorem at concrete inputs. -/
theorem C5_firm_parse_witness :
    FirmHeader.parse (List.replicate 0x1FF 0) = .error .fileTooSmall ∧
    FirmHeader.parse firmExample ≠ .error .invalidMagic := by
  constructor
  · exact (C5_firm_parse (List.replicate 0x1FF 0)).1.mpr (by decide)
  · intro hbad
    have h := ((C5_firm_parse firmExample).2.1 (by decide)).mp hbad
    exact h (by decide)

/-! ## Theorems: GPU register model -/

/-- C8 as stated is false: the format registers do not store the written
value verbatim.  Writing 5 to the top-screen format register and reading it
back returns `0xFF` (the `Unknown` discriminant), not 5. -/
theorem C8_counterexample :
    (GpuState.new.write FRAMEBUFFER_TOP_FORMAT 5).read FRAMEBUFFER_TOP_FORMAT
      = 0xFF ∧ (0xFF : Nat) ≠ 5 := by
  constructor
  · rfl
  · decide

/-- Helper: decoding then re-encoding a pixel-format value keeps the low
three bits when they name a known format (0-4) and collapses to `0xFF`
otherwise. -/
theorem pixelFormat_roundtrip (v : Nat) :
    (PixelFormat.ofU32 v).toU32 = if v % 8 ≤ 4 then v % 8 else 0xFF := by
  have h8 : v % 8 < 8 := Nat.mod_lt _ (by norm_num)
  have hd : v % 8 = 0 ∨ v % 8 = 1 ∨ v % 8 = 2 ∨ v % 8 = 3 ∨ v % 8 = 4 ∨
      v % 8 = 5 ∨ v % 8 = 6 ∨ v % 8 = 7 := by omega
  rcases hd with h | h | h | h | h | h | h | h <;>
    simp [PixelFormat.ofU32, PixelFormat.toU32, h]

/-- C8 amended: the five address/stride framebuffer registers store the
written 32-bit value verbatim (write-then-read returns exactly it); the two
format registers store the decoded pixel format of the low three bits, so a
read returns `v % 8` when that names a known format (0-4) and `0xFF`
otherwise; reads of unknown offsets return 0 and writes to unknown offsets
leave the entire GPU state unchanged. -/
theorem C8_amended_gpu_registers (g : GpuState) (v : Nat) :
    ((g.write FRAMEBUFFER_TOP_LEFT v).read FRAMEBUFFER_TOP_LEFT = v) ∧
    ((g.write FRAMEBUFFER_TOP_RIGHT v).read FRAMEBUFFER_TOP_RIGHT = v) ∧
    ((g.write FRAMEBUFFER_TOP_STRIDE v).read FRAMEBUFFER_TOP_STRIDE = v) ∧
    ((g.write FRAMEBUFFER_BOTTOM_LEFT v).read FRAMEBUFFER_BOTTOM_LEFT = v) ∧
    ((g.write FRAMEBUFFER_BOTTOM_STRIDE v).read FRAMEBUFFER_BOTTOM_STRIDE = v) ∧
    ((g.write FRAMEBUFFER_TOP_FORMAT v).read FRAMEBUFFER_TOP_FORMAT =
      if v % 8 ≤ 4 then v % 8 else 0xFF) ∧
    ((g.write FRAMEBUFFER_BOTTOM_FORMAT v).read FRAMEBUFFER_BOTTOM_FORMAT =
      if v % 8 ≤ 4 then v % 8 else 0xFF) ∧
    (∀ off, off ∉ [FRAMEBUFFER_TOP_LEFT, FRAMEBUFFER_TOP_RIGHT,
        FRAMEBUFFER_TOP_FORMAT, FRAMEBUFFER_TOP_STRIDE,
        FRAMEBUFFER_BOTTOM_LEFT, FRAMEBUFFER_BOTTOM_FORMAT,
        FRAMEBUFFER_BOTTOM_STRIDE] →
      g.read off = 0 ∧ g.write off v = g) := by
  refine ⟨?_, ?_, ?_, ?_, ?_, ?_, ?_, ?_⟩
  · simp [GpuState.write, GpuState.read, FRAMEBUFFER_TOP_LEFT,
      FRAMEBUFFER_TOP_RIGHT, FRAMEBUFFER_TOP_FORMAT, FRAMEBUFFER_TOP_STRIDE,
      FRAMEBUFFER_BOTTOM_LEFT, FRAMEBUFFER_BOTTOM_FORMAT,
      FRAMEBUFFER_BOTTOM_STRIDE]
  · simp [GpuState.write, GpuState.read, FRAMEBUFFER_TOP_LEFT,
      FRAMEBUFFER_TOP_RIGHT, FRAMEBUFFER_TOP_FORMAT, FRAMEBUFFER_TOP_STRIDE,
      FRAMEBUFFER_BOTTOM_LEFT, FRAMEBUFFER_BOTTOM_FORMAT,
      FRAMEBUFFER_BOTTOM_STRIDE]
  · simp [GpuState.write, GpuState.read, FRAMEBUFFER_TOP_LEFT,
      FRAMEBUFFER_TOP_RIGHT, FRAMEBUFFER_TOP_FORMAT, FRAMEBUFFER_TOP_STRIDE,
      FRAMEBUFFER_BOTTOM_LEFT, FRAMEBUFFER_BOTTOM_FORMAT,
      FRAMEBUFFER_BOTTOM_STRIDE]
  · simp [GpuState.write, GpuState.read, FRAMEBUFFER_TOP_LEFT,
      FRAMEBUFFER_TOP_RIGHT, FRAMEBUFFER_TOP_FORMAT, FRAMEBUFFER_TOP_STRIDE,
      FRAMEBUFFER_BOTTOM_LEFT, FRAMEBUFFER_BOTTOM_FORMAT,
      FRAMEBUFFER_BOTTOM_STRIDE]
  · simp [GpuState.write, GpuState.read, FRAMEBUFFER_TOP_LEFT,
      FRAMEBUFFER_TOP_RIGHT, FRAMEBUFFER_TOP_FORMAT, FRAMEBUFFER_TOP_STRIDE,
      FRAMEBUFFER_BOTTOM_LEFT, FRAMEBUFFER_BOTTOM_FORMAT,
      FRAMEBUFFER_BOTTOM_STRIDE]
  · rw [← pixelFormat_roundtrip v]
    simp [GpuState.write, GpuState.read, FRAMEBUFFER_TOP_LEFT,
      FRAMEBUFFER_TOP_RIGHT, FRAMEBUFFER_TOP_FORMAT, FRAMEBUFFER_TOP_STRIDE,
      FRAMEBUFFER_BOTTOM_LEFT, FRAMEBUFFER_BOTTOM_FORMAT,
      FRAMEBUFFER_BOTTOM_STRIDE]
  · rw [← pixelFormat_roundtrip v]
    simp [GpuState.write, GpuState.read, FRAMEBUFFER_TOP_LEFT,
      FRAMEBUFFER_TOP_RIGHT, FRAMEBUFFER_TOP_FORMAT, FRAMEBUFFER_TOP_STRIDE,
      FRAMEBUFFER_BOTTOM_LEFT, FRAMEBUFFER_BOTTOM_FORMAT,
      FRAMEBUFFER_BOTTOM_STRIDE]
  · intro off hoff
    simp only [List.mem_cons, List.not_mem_nil, or_false, not_or] at hoff
    obtain ⟨h1, h2, h3, h4, h5, h6, h7⟩ := hoff
    exact ⟨by simp [GpuState.read, h1, h2, h3, h4, h5, h6, h7],
      by simp [GpuState.write, h1, h2, h3, h4, h5, h6, h7]⟩

/-- Witness for C8's amended theorem: address-register round trip at a
concrete value, and a concrete unknown offset that reads 0 and ignores
writes. -/
theorem C8_amended_gpu_registers_witness :
    (GpuState.new.write FRAMEBUFFER_TOP_LEFT 0x18000000).read
      FRAMEBUFFER_TOP_LEFT = 0x18000000 ∧
    GpuState.new.read 0x123 = 0 ∧
    GpuState.new.write 0x123 7 = GpuState.new := by
  have h1 := C8_amended_gpu_registers GpuState.new 0x18000000
  have h2 := C8_amended_gpu_registers GpuState.new 7
  refine ⟨h1.1, ?_, ?_⟩
  · exact (h2.2.2.2.2.2.2.2 0x123 (by decide)).1
  · exact (h2.2.2.2.2.2.2.2 0x123 (by decide)).2

/-! ## Theorems: SDMMC controller -/

/-- C6: writing a 16-bit value `v` to either status register replaces it by
the bitwise AND of the old value with `v` (write-1-survives clear
semantics), and every read of STATUS0 returns the stored value with the
card-inserted bit (bit 5) and the not-write-protected bit (bit 7) forced
set. -/
theorem C6_status_register_semantics (s : SdmmcState) (v : Nat)
    (hv : v < 65536) :
    (s.write 0x01c v).status0 = s.status0 &&& v ∧
    (s.write 0x01e v).status1 = s.status1 &&& v ∧
    (s.read 0x01c).2 =
      (s.status0 ||| TMIO_STAT0_CARD_INSERTED) ||| TMIO_STAT0_WRPROTECT := by
  have hm : v % 65536 = v := Nat.mod_eq_of_lt hv
  refine ⟨?_, ?_, rfl⟩
  · show s.status0 &&& (v % 65536) = s.status0 &&& v
    rw [hm]
  · show s.status1 &&& (v % 65536) = s.status1 &&& v
    rw [hm]

/-- Witness for C6 at the concrete bit patterns of the spec: a status
register holding `0b101` written with `0b001` holds exactly `0b001`. -/
theorem C6_status_register_semantics_witness :
    (({ SdmmcState.new none with status0 := 5 }).write 0x01c 1).status0 = 1 ∧
    (({ SdmmcState.new none with status0 := 5 }).read 0x01c).2 =
      (5 ||| TMIO_STAT0_CARD_INSERTED) ||| TMIO_STAT0_WRPROTECT := by
  have h := C6_status_register_semantics
    { SdmmcState.new none with status0 := 5 } 1 (by norm_num)
  exact ⟨h.1, h.2.2⟩

/-- C9: reading any SDMMC register other than the 32-bit FIFO at offset
0x10C leaves the entire controller state unchanged (all register fields,
the transfer buffer and position, the remaining-block counter, and the
pending-application-command flag); only the 0x10C arm calls the mutating
`read_fifo32`. -/
theorem C9_read_is_pure (s : SdmmcState) (offset : Nat)
    (h : offset ≠ 0x10c) :
    (s.read offset).1 = s := by
  unfold SdmmcState.read
  split <;> first
    | rfl
    | exact absurd rfl h

/-- A concrete mid-transfer controller state used by the C9 witness. -/
def c9State : SdmmcState :=
  { SdmmcState.new none with
      status0 := 7
      transfer_buffer := [1, 2]
      transfer_pos := 1 }

/-- Witness for C9 at a concrete state and a concrete offset (STATUS0). -/
theorem C9_read_is_pure_witness :
    (c9State.read 0x01c).1 = c9State :=
  C9_read_is_pure c9State 0x01c (by decide)

/-- C10: a 32-bit FIFO access touches the staged buffer only when the
transfer position plus 4 fits inside it; otherwise the read returns 0 and
the write is discarded, with the whole controller state (position, buffer,
remaining-block counter, status registers) unchanged — in particular this
covers the empty-buffer case of an idle controller, and the out-of-bounds
indexing branch is never reached. -/
theorem C10_fifo32_out_of_range (s : SdmmcState) (v : Nat)
    (h : ¬s.transfer_pos + 4 ≤ s.transfer_buffer.length) :
    s.read_fifo32 = (s, 0) ∧ s.write_fifo32 v = s := by
  unfold SdmmcState.read_fifo32 SdmmcState.write_fifo32
  simp [h]

/-- Witness for C10 at the idle controller with its empty staged buffer. -/
theorem C10_fifo32_out_of_range_witness :
    (SdmmcState.new none).read_fifo32 = (SdmmcState.new none, 0) ∧
    (SdmmcState.new none).write_fifo32 0xDEADBEEF = SdmmcState.new none :=
  C10_fifo32_out_of_range (SdmmcState.new none) 0xDEADBEEF (by decide)

/-- A controller state with a staged 8-byte transfer, used to refute C4 and
to witness its amended form. -/
def c4State : SdmmcState :=
  { SdmmcState.new none with
      fifo := 0xAB
      transfer_buffer := [1, 2, 3, 4, 5, 6, 7, 8]
      transfer_pos := 0
      transfer_blocks_remaining := 2 }

/-- C4 as stated is false: an access to the 2-byte FIFO register at offset
0x030 does not drain or fill the staged transfer buffer.  With an 8-byte
buffer staged at position 0, reading 0x030 returns the 16-bit FIFO latch
(0xAB), not the next buffer bytes, and leaves the state (in particular the
transfer position) unchanged; writing 0x030 only stores into the latch,
leaving the buffer and position unchanged. -/
theorem C4_counterexample :
    (c4State.read 0x030).2 = 0xAB ∧
    (c4State.read 0x030).2 ≠ c4State.transfer_buffer.getD 0 0 +
      c4State.transfer_buffer.getD 1 0 * 256 ∧
    (c4State.read 0x030).1 = c4State ∧
    (c4State.write 0x030 0xCDEF).transfer_buffer = c4State.transfer_buffer ∧
    (c4State.write 0x030 0xCDEF).transfer_pos = c4State.transfer_pos := by
  refine ⟨rfl, by decide, rfl, rfl, rfl⟩

/-- C4 amended: only the 4-byte FIFO register at offset 0x10C drains (on
read) or fills (on write) the staged transfer buffer, returning or
consuming four successive little-endian bytes and advancing the transfer
position by 4; the 2-byte FIFO register at offset 0x030 is a plain 16-bit
latch whose reads and writes never touch the staged buffer or the
position.  (Stated away from a block boundary, i.e. with at least 8 bytes
left, so block-completion handling does not fire; boundary behaviour is
the subject of the block-completion claim.) -/
theorem C4_amended_fifo_access (s : SdmmcState) (v : Nat) :
    ((s.read 0x030).1 = s ∧ (s.read 0x030).2 = s.fifo) ∧
    (s.write 0x030 v = { s with fifo := v % 65536 }) ∧
    (s.transfer_pos + 8 ≤ s.transfer_buffer.length →
      (s.read 0x10c).1 = { s with transfer_pos := s.transfer_pos + 4 } ∧
      (s.read 0x10c).2 =
        s.transfer_buffer.getD s.transfer_pos 0 +
        s.transfer_buffer.getD (s.transfer_pos + 1) 0 * 256 +
        s.transfer_buffer.getD (s.transfer_pos + 2) 0 * 65536 +
        s.transfer_buffer.getD (s.transfer_pos + 3) 0 * 16777216 ∧
      (s.write 0x10c v).transfer_pos = s.transfer_pos + 4 ∧
      (s.write 0x10c v).transfer_buffer =
        (((s.transfer_buffer.set s.transfer_pos (v % 256)).set
          (s.transfer_pos + 1) ((v >>> 8) % 256)).set
          (s.transfer_pos + 2) ((v >>> 16) % 256)).set
          (s.transfer_pos + 3) ((v >>> 24) % 256)) := by
  refine ⟨⟨rfl, rfl⟩, rfl, ?_⟩
  intro h
  have h4 : s.transfer_pos + 4 ≤ s.transfer_buffer.length := by omega
  have hnb : ¬s.transfer_buffer.length ≤ s.transfer_pos + 4 := by omega
  have hr : (s.read 0x10c) = s.read_fifo32 := rfl
  have hw : (s.write 0x10c v) =
      ({ s with data32_fifo := v }).write_fifo32 v := rfl
  rw [hr, hw]
  unfold SdmmcState.read_fifo32 SdmmcState.write_fifo32
  simp [h4, hnb]

/-- Witness for C4's amended theorem at the concrete staged state: the
first 32-bit FIFO read drains bytes 1,2,3,4 little-endian and advances the
position to 4. -/
theorem C4_amended_fifo_access_witness :
    (c4State.read 0x10c).2 = 0x04030201 ∧
    (c4State.read 0x10c).1 = { c4State with transfer_pos := 4 } := by
  have h := (C4_amended_fifo_access c4State 0).2.2 (by decide)
  exact ⟨h.2.1, h.1⟩

/-- The SD image used for C3: every byte of sector `n` holds `n % 256`,
making the staged sector identifiable from the buffer contents. -/
def c3SdImage : Nat → Nat := fun off => (off / 512) % 256

/-- The controller after the C3 command sequence: select 32-bit-mode block
length 8 and block count 2 (while the legacy 16-bit block-count register
stays 0), set the command argument to sector 100, then issue CMD18
(READ_MULTIPLE_BLOCK). -/
def c3Start : SdmmcState :=
  ((((SdmmcState.new (some c3SdImage)).write 0x104 8).write
    0x108 2).write 0x004 100).write 0x000 18

/-- C3 fails in 32-bit mode: `handle_block_complete_read` computes the next
sector from the LEGACY `blkcount` register
(`transfer_start_addr + (blkcount - transfer_blocks_remaining)` in wrapping
u16 arithmetic) even when the block count was taken from the 32-bit-mode
register.  After CMD18 at sector 100 with 32-bit-mode block count 2 and
legacy `blkcount = 0`, draining the first block stages sector
100 + ((0 - 1) mod 2^16) = 65635 — every byte 99 — instead of sector 101
(every byte 101).  The decrement, position reset and read-ready re-assert
of the claim do occur; only the staged sector is wrong (and a debug build
panics on the u16 underflow `0 - 1`). -/
theorem C3_next_sector_bug :
    c3Start.transfer_blocks_remaining = 2 ∧
    c3Start.blkcount = 0 ∧
    c3Start.transfer_buffer = List.replicate 8 100 ∧
    (((c3Start.read_fifo32).1.read_fifo32).1.transfer_blocks_remaining = 1 ∧
     ((c3Start.read_fifo32).1.read_fifo32).1.transfer_pos = 0 ∧
     ((c3Start.read_fifo32).1.read_fifo32).1.status1 &&& TMIO_STAT1_RXRDY ≠ 0 ∧
     ((c3Start.read_fifo32).1.read_fifo32).1.transfer_buffer =
       List.replicate 8 99 ∧
     fileReadBytes c3SdImage (101 * 512) 8 = List.replicate 8 101 ∧
     ((c3Start.read_fifo32).1.read_fifo32).1.transfer_buffer ≠
       fileReadBytes c3SdImage (101 * 512) 8) := by
  refine ⟨by decide, by decide, by decide, by decide, by decide, by decide,
    by decide, by decide, by decide⟩
